import Mathlib

/-!
Shallow embedding of the Loop (Mattermost) → YouGile bot (`app.py`):
the dialog store, the wizard step handlers, deadline computation, the
custom-date reader (Python `strptime` with format `%Y-%m-%d`), the
allowed-project resolver, and the idle-dialog sweeper; together with
theorems checking the specification's statements against these
definitions.

Conventions used throughout:
* calendar dates are represented as days since the Unix epoch (`Int`);
  the civil conversions below follow the standard civil-calendar
  algorithms and agree with Python `date` / `datetime.timestamp` on the
  relevant range;
* the Python dict-backed dialog state is a structure of optional fields
  (an absent key and a key stored as `None` coincide); `dict.get` with a
  default is `Option.getD`, and Python `or` chains (where the empty
  string and `0` are falsy) are the `pyOr*` helpers;
* network calls are parameters: each handler takes the data the original
  code fetches (boards, columns, users, ids of posts it creates, …) as
  arguments and returns the updated store together with the list of
  outbound commands it issues.
-/

namespace YougileBot

/-- Python `s.lower()` (ASCII case folding; all strings this code
lowercases are ASCII identifiers or emails). Structural so that proofs
can evaluate it. -/
def pyLower (s : String) : String := ⟨s.data.map Char.toLower⟩

/-- Python `s.strip()`: drop leading and trailing whitespace. -/
def pyStrip (s : String) : String :=
  ⟨((s.data.dropWhile Char.isWhitespace).reverse.dropWhile Char.isWhitespace).reverse⟩

/-- Python `a or b` for strings: the empty string is falsy. -/
def pyOrStr (a b : String) : String := if a = "" then b else a

/-- Python `a or b` where `a` is an optional string (`None` and `""` falsy). -/
def pyOrOpt (a b : Option String) : Option String :=
  match a with
  | some s => if s = "" then b else some s
  | none => b

/-- Python `x or default` collapsing an optional string to a string. -/
def pyGetOr (a : Option String) (d : String) : String :=
  match a with
  | some s => if s = "" then d else s
  | none => d

/-- Python `a or b` for optional timestamps (`None` and `0` falsy), returning
`none` when the whole chain is falsy (`if not updated_at: continue`). -/
def pyOrTime (a b : Option Int) : Option Int :=
  match a with
  | some x =>
      if x ≠ 0 then some x
      else match b with
        | some y => if y ≠ 0 then some y else none
        | none => none
  | none =>
      match b with
      | some y => if y ≠ 0 then some y else none
      | none => none

/-! ### Calendar arithmetic (dates as days since the Unix epoch) -/

/-- Gregorian leap-year test, as in Python's `calendar`/`datetime`. -/
def isLeapYear (y : Int) : Bool := (y % 4 = 0 ∧ y % 100 ≠ 0) ∨ y % 400 = 0

/-- Number of days in a month, as validated by `datetime.date`. -/
def daysInMonth (y m : Int) : Int :=
  if m = 2 then (if isLeapYear y then 29 else 28)
  else if m = 4 ∨ m = 6 ∨ m = 9 ∨ m = 11 then 30 else 31

/-- Days since the Unix epoch of a civil date (standard civil-calendar
algorithm; agrees with Python `date(y, m, d)`). -/
def daysFromCivil (y m d : Int) : Int :=
  let y2 := if m ≤ 2 then y - 1 else y
  let era := (if 0 ≤ y2 then y2 else y2 - 399) / 400
  let yoe := y2 - era * 400
  let doy := (153 * ((m + 9) % 12) + 2) / 5 + d - 1
  let doe := yoe * 365 + yoe / 4 - yoe / 100 + doy
  era * 146097 + doe - 719468

/-- Civil date of a days-since-epoch count (inverse of `daysFromCivil`). -/
def civilFromDays (z0 : Int) : Int × Int × Int :=
  let z := z0 + 719468
  let era := (if 0 ≤ z then z else z - 146096) / 146097
  let doe := z - era * 146097
  let yoe := (doe - doe / 1460 + doe / 36524 - doe / 146096) / 365
  let y := yoe + era * 400
  let doy := doe - (365 * yoe + yoe / 4 - yoe / 100)
  let mp := (5 * doy + 2) / 153
  let d := doy - (153 * mp + 2) / 5 + 1
  let m := mp + (if mp < 10 then 3 else -9)
  (if m ≤ 2 then y + 1 else y, m, d)

/-- Two-digit zero padding, as in `strftime`. -/
def pad2 (n : Int) : String := if n < 10 then "0" ++ toString n else toString n

/-- Python `deadline.strftime("%d.%m.%Y")` on an epoch-day date. -/
def dateDDMMYYYY (z : Int) : String :=
  let c := civilFromDays z
  pad2 c.2.2 ++ "." ++ pad2 c.2.1 ++ "." ++ toString c.1

/-- Epoch-millisecond instant of 12:00:00 UTC on the given epoch-day date
(the specification's "noon UTC of the chosen date"). -/
def noonUtcMs (z : Int) : Int := z * 86400000 + 43200000

/-! ### `calc_deadline` and `format_deadline` (app.py lines 637–691) -/

/-- `calc_deadline(choice)` from app.py, with the wall-clock date
`date.today()` at the moment of the call made an explicit `today`
parameter. Unrecognised choices (including `None` and `""`) fall back to
today's date. -/
def calc_deadline (today : Int) (choice : Option String) : Int :=
  let c := pyLower (choice.getD "")
  if c = "today" then today
  else if c = "tomorrow" then today + 1
  else if c = "day_after_tomorrow" then today + 2
  else if c = "week" then today + 7
  else if c = "month" then today + 30
  else today

/-- `format_deadline(choice, deadline, raw_display)` from app.py:
the human-readable deadline and the summary string. -/
def format_deadline (choice : Option String) (deadline : Option Int)
    (raw_display : Option String) : String × String :=
  let c := pyLower (choice.getD "")
  let deadline_human :=
    if c = "none" then "Без дедлайна"
    else if c = "today" then "Сегодня"
    else if c = "tomorrow" then "Завтра"
    else if c = "day_after_tomorrow" then "Послезавтра"
    else if c = "week" then "Через неделю"
    else if c = "month" then "Через месяц"
    else if c = "custom" ∧ pyGetOr raw_display "" ≠ "" then pyGetOr raw_display ""
    else match deadline with
      | some d => dateDDMMYYYY d
      | none => "без дедлайна"
  match deadline with
  | some d => (deadline_human, deadline_human ++ " (" ++ dateDDMMYYYY d ++ ")")
  | none => (deadline_human, pyOrStr deadline_human "без дедлайна")

/-! ### The custom-date reader: `datetime.strptime(text, "%Y-%m-%d").date()`

CPython's `_strptime` compiles the format to the regular expression
`(?P<Y>\d\d\d\d)-(?P<m>1[0-2]|0[1-9]|[1-9])-(?P<d>3[01]|[12]\d|0[1-9]|[1-9])`,
matches it at the start of the input, and raises `ValueError` when the
match fails, when unconverted data remains, or when the resulting
calendar date is invalid. The functions below implement exactly this:
greedy alternation for the month and day groups, full consumption of the
input, then `datetime.date` validity. -/

/-- ASCII digit test (`\d` in the strptime pattern). -/
def isDig (c : Char) : Bool := 48 ≤ c.toNat ∧ c.toNat ≤ 57

/-- Numeric value of an ASCII digit. -/
def digVal (c : Char) : Int := (c.toNat : Int) - 48

/-- The month group `1[0-2]|0[1-9]|[1-9]`, greedy with backtracking: a
two-digit month `10`–`12` or `01`–`09`, else a single digit `1`–`9`. -/
def parseMonthPart : List Char → Option (Int × List Char)
  | c1 :: c2 :: rest =>
      if c1 = '1' ∧ 48 ≤ c2.toNat ∧ c2.toNat ≤ 50 then some (10 + digVal c2, rest)
      else if c1 = '0' then
        (if 49 ≤ c2.toNat ∧ c2.toNat ≤ 57 then some (digVal c2, rest) else none)
      else if 49 ≤ c1.toNat ∧ c1.toNat ≤ 57 then some (digVal c1, c2 :: rest)
      else none
  | [c1] =>
      if 49 ≤ c1.toNat ∧ c1.toNat ≤ 57 then some (digVal c1, []) else none
  | [] => none

/-- The day group `3[01]|[12]\d|0[1-9]|[1-9]`, greedy with backtracking. -/
def parseDayPart : List Char → Option (Int × List Char)
  | c1 :: c2 :: rest =>
      if c1 = '3' ∧ (c2.toNat = 48 ∨ c2.toNat = 49) then some (30 + digVal c2, rest)
      else if (c1 = '1' ∨ c1 = '2') ∧ isDig c2 then some (digVal c1 * 10 + digVal c2, rest)
      else if c1 = '0' then
        (if 49 ≤ c2.toNat ∧ c2.toNat ≤ 57 then some (digVal c2, rest) else none)
      else if 49 ≤ c1.toNat ∧ c1.toNat ≤ 57 then some (digVal c1, c2 :: rest)
      else none
  | [c1] =>
      if 49 ≤ c1.toNat ∧ c1.toNat ≤ 57 then some (digVal c1, []) else none
  | [] => none

/-- The full `%Y-%m-%d` pattern: exactly four year digits, the hyphens,
the month and day groups, and no unconverted trailing data. -/
def parseYMDCore (cs : List Char) : Option (Int × Int × Int) :=
  match cs with
  | y1 :: y2 :: y3 :: y4 :: c5 :: rest =>
      if isDig y1 ∧ isDig y2 ∧ isDig y3 ∧ isDig y4 ∧ c5 = '-' then
        match parseMonthPart rest with
        | some (m, rest2) =>
            (match rest2 with
             | c6 :: rest3 =>
                 if c6 = '-' then
                   match parseDayPart rest3 with
                   | some (d, []) =>
                       some (digVal y1 * 1000 + digVal y2 * 100 + digVal y3 * 10 + digVal y4,
                         m, d)
                   | _ => none
                 else none
             | [] => none)
        | none => none
      else none
  | _ => none

/-- `datetime.strptime(s, "%Y-%m-%d").date()`: the pattern match above
followed by `datetime` calendar validation (year at least 1, day within
the month). Returns the parsed (year, month, day), or `none` where the
original raises `ValueError`. -/
def strptimeYMD (s : String) : Option (Int × Int × Int) :=
  match parseYMDCore s.data with
  | some (y, m, d) => if 1 ≤ y ∧ d ≤ daysInMonth y m then some (y, m, d) else none
  | none => none

/-- Modelled from the spec, for comparison with `strptimeYMD`: a
"hyphen-separated calendar date with 4-digit year, 2-digit month, and
2-digit day" — exactly ten characters `YYYY-MM-DD`, all digit positions
digits, and the result a valid calendar date. -/
def specStrictYMD (s : String) : Bool :=
  match s.data with
  | [y1, y2, y3, y4, '-', m1, m2, '-', d1, d2] =>
      isDig y1 ∧ isDig y2 ∧ isDig y3 ∧ isDig y4 ∧ isDig m1 ∧ isDig m2 ∧ isDig d1 ∧ isDig d2 ∧
      (let y := digVal y1 * 1000 + digVal y2 * 100 + digVal y3 * 10 + digVal y4
       let m := digVal m1 * 10 + digVal m2
       let d := digVal d1 * 10 + digVal d2
       1 ≤ y ∧ 1 ≤ m ∧ m ≤ 12 ∧ 1 ≤ d ∧ d ≤ daysInMonth y m)
  | _ => false

/-! ### The dialog store (app.py `STATE` / `set_state` / `get_state` / `clear_state`)

A dialog is keyed by `(user_id, root_post_id)`. The state dict becomes a
structure of optional fields; its keys carry the Python names. -/

/-- A dialog key: `(user_id, root_post_id)`. -/
abbrev DKey := String × String

/-- The per-dialog state dict. `none` models both an absent key and a key
stored as Python `None`; list-valued fields default to `[]` the way the
code reads them (`state.get("post_ids", [])` and friends). Dates are
epoch days. -/
structure DialogState where
  step : Option String := none
  task_title : Option String := none
  channel_id : Option String := none
  root_post_id : Option String := none
  project_id : Option String := none
  project_title : Option String := none
  board_id : Option String := none
  board_title : Option String := none
  project_options : List (String × String) := []
  board_options : List (String × String) := []
  column_options : List (String × String) := []
  column_id : Option String := none
  assignee_id : Option String := none
  assignee_name : Option String := none
  deadline_choice : Option String := none
  deadline : Option Int := none
  deadline_display : Option String := none
  deadline_str : Option String := none
  post_ids : List String := []
  yougile_task_id : Option String := none
  task_url : Option String := none
  ask_title_post_id : Option String := none
  created_at : Option Int := none
  updated_at : Option Int := none
deriving DecidableEq

/-- The global `STATE` map as an association list. -/
abbrev Store := List (DKey × DialogState)

/-- Dict lookup: the value bound to a key, if any (`STATE.get(key)`). -/
def lookupS : Store → DKey → Option DialogState
  | [], _ => none
  | (k', st) :: rest, k => if k' = k then some st else lookupS rest k

/-- Dict assignment `STATE[key] = st`: replaces an existing binding,
otherwise appends. -/
def setS : Store → DKey → DialogState → Store
  | [], k, st => [(k, st)]
  | (k', st') :: rest, k, st =>
      if k' = k then (k, st) :: rest else (k', st') :: setS rest k st

/-- Dict removal `STATE.pop(key, None)`. -/
def removeS : Store → DKey → Store
  | [], _ => []
  | (k', st') :: rest, k =>
      if k' = k then removeS rest k else (k', st') :: removeS rest k

/-- The dict invariant: every key is bound at most once. -/
def keysNodup (s : Store) : Prop := (s.map Prod.fst).Nodup

instance : DecidablePred keysNodup := fun s =>
  inferInstanceAs (Decidable (s.map Prod.fst).Nodup)

/-- `set_state(user_id, root_post_id, data)` from app.py: fetch-or-create
the entry, stamp `created_at` if absent, merge `data` (the function `f`,
always a record merge below), stamp `updated_at`; returns the updated
store together with the merged state (the Python function's return
value). -/
def set_state (store : Store) (k : DKey) (now : Int)
    (f : DialogState → DialogState) : Store × DialogState :=
  let s0 := (lookupS store k).getD {}
  let s1 := { s0 with created_at := some (s0.created_at.getD now) }
  let s2 := { f s1 with updated_at := some now }
  (setS store k s2, s2)

/-- `clear_state(user_id, root_post_id)` from app.py. -/
def clear_state (store : Store) (k : DKey) : Store := removeS store k

/-! ### Store lemmas -/

theorem lookupS_setS_self (s : Store) (k : DKey) (v : DialogState) :
    lookupS (setS s k v) k = some v := by
  induction s with
  | nil => simp [setS, lookupS]
  | cons p rest ih =>
      obtain ⟨k', st'⟩ := p
      by_cases h : k' = k
      · simp [setS, h, lookupS]
      · simp [setS, h, lookupS, ih]

theorem lookupS_setS_ne (s : Store) (k k' : DKey) (v : DialogState) (h : k' ≠ k) :
    lookupS (setS s k v) k' = lookupS s k' := by
  have hne : ¬(k = k') := fun hEq => h hEq.symm
  induction s with
  | nil => simp [setS, lookupS, if_neg hne]
  | cons p rest ih =>
      obtain ⟨k0, st0⟩ := p
      by_cases hk : k0 = k
      · subst hk
        simp [setS, lookupS, if_neg hne]
      · simp only [setS, if_neg hk, lookupS]
        by_cases hk' : k0 = k'
        · simp [hk']
        · simp [hk', ih]

theorem lookupS_removeS_self (s : Store) (k : DKey) :
    lookupS (removeS s k) k = none := by
  induction s with
  | nil => simp [removeS, lookupS]
  | cons p rest ih =>
      obtain ⟨k0, st0⟩ := p
      by_cases hk : k0 = k
      · simp [removeS, hk, ih]
      · simp [removeS, hk, lookupS, ih]

theorem lookupS_removeS_ne (s : Store) (k k' : DKey) (h : k' ≠ k) :
    lookupS (removeS s k) k' = lookupS s k' := by
  have hne : ¬(k = k') := fun hEq => h hEq.symm
  induction s with
  | nil => simp [removeS]
  | cons p rest ih =>
      obtain ⟨k0, st0⟩ := p
      by_cases hk : k0 = k
      · subst hk
        simp [removeS, lookupS, if_neg hne, ih]
      · simp only [removeS, if_neg hk, lookupS]
        by_cases hk' : k0 = k'
        · simp [hk']
        · simp [hk', ih]

theorem mem_map_fst_setS (s : Store) (k x : DKey) (v : DialogState)
    (h : x ∈ (setS s k v).map Prod.fst) : x = k ∨ x ∈ s.map Prod.fst := by
  induction s with
  | nil =>
      simp only [setS, List.map_cons, List.map_nil, List.mem_singleton] at h
      exact Or.inl h
  | cons p rest ih =>
      obtain ⟨k0, st0⟩ := p
      by_cases hk : k0 = k
      · rw [show setS ((k0, st0) :: rest) k v = (k, v) :: rest from by simp [setS, hk]] at h
        simp only [List.map_cons, List.mem_cons] at h
        rcases h with h | h
        · exact Or.inl h
        · exact Or.inr (by simp only [List.map_cons, List.mem_cons]; exact Or.inr h)
      · rw [show setS ((k0, st0) :: rest) k v = (k0, st0) :: setS rest k v from by
              simp [setS, hk]] at h
        simp only [List.map_cons, List.mem_cons] at h
        rcases h with h | h
        · exact Or.inr (by simp [h])
        · rcases ih h with h2 | h2
          · exact Or.inl h2
          · exact Or.inr (by simp only [List.map_cons, List.mem_cons]; exact Or.inr h2)

theorem mem_removeS (s : Store) (k : DKey) (q : DKey × DialogState)
    (h : q ∈ removeS s k) : q ∈ s := by
  induction s with
  | nil => simp [removeS] at h
  | cons p rest ih =>
      obtain ⟨k0, st0⟩ := p
      by_cases hk : k0 = k
      · rw [show removeS ((k0, st0) :: rest) k = removeS rest k from by simp [removeS, hk]] at h
        exact List.mem_cons_of_mem _ (ih h)
      · rw [show removeS ((k0, st0) :: rest) k = (k0, st0) :: removeS rest k from by
              simp [removeS, hk]] at h
        simp only [List.mem_cons] at h
        rcases h with h | h
        · exact List.mem_cons.mpr (Or.inl h)
        · exact List.mem_cons_of_mem _ (ih h)

theorem keysNodup_setS (s : Store) (k : DKey) (v : DialogState)
    (h : keysNodup s) : keysNodup (setS s k v) := by
  induction s with
  | nil => simp [setS, keysNodup]
  | cons p rest ih =>
      obtain ⟨k0, st0⟩ := p
      simp only [keysNodup, List.map_cons, List.nodup_cons] at h
      by_cases hk : k0 = k
      · rw [show setS ((k0, st0) :: rest) k v = (k, v) :: rest from by simp [setS, hk]]
        simp only [keysNodup, List.map_cons, List.nodup_cons]
        exact ⟨hk ▸ h.1, h.2⟩
      · rw [show setS ((k0, st0) :: rest) k v = (k0, st0) :: setS rest k v from by
              simp [setS, hk]]
        simp only [keysNodup, List.map_cons, List.nodup_cons]
        refine ⟨?_, ih h.2⟩
        intro hmem
        rcases mem_map_fst_setS rest k k0 v hmem with h2 | h2
        · exact hk h2
        · exact h.1 h2

theorem keysNodup_removeS (s : Store) (k : DKey)
    (h : keysNodup s) : keysNodup (removeS s k) := by
  induction s with
  | nil => simp [removeS, keysNodup]
  | cons p rest ih =>
      obtain ⟨k0, st0⟩ := p
      simp only [keysNodup, List.map_cons, List.nodup_cons] at h
      by_cases hk : k0 = k
      · rw [show removeS ((k0, st0) :: rest) k = removeS rest k from by simp [removeS, hk]]
        exact ih h.2
      · rw [show removeS ((k0, st0) :: rest) k = (k0, st0) :: removeS rest k from by
              simp [removeS, hk]]
        simp only [keysNodup, List.map_cons, List.nodup_cons]
        refine ⟨?_, ih h.2⟩
        intro hmem
        rcases List.mem_map.mp hmem with ⟨q, hq, hq1⟩
        exact h.1 (List.mem_map.mpr ⟨q, mem_removeS rest k q hq, hq1⟩)

theorem set_state_lookup_self (store : Store) (k : DKey) (now : Int)
    (f : DialogState → DialogState) :
    lookupS (set_state store k now f).1 k = some (set_state store k now f).2 := by
  simp [set_state, lookupS_setS_self]

/-! ### External data and outbound commands -/

/-- A YouGile board as the handlers read it (`b.get("id")` falsy ⇒ `""`). -/
structure Board where
  id : String
  title : Option String := none
deriving DecidableEq

/-- A YouGile column. -/
structure Column where
  id : String
  title : Option String := none
deriving DecidableEq

/-- A YouGile user record from `/users`. -/
structure YgUser where
  id : Option String := none
  email : Option String := none
  realName : Option String := none
deriving DecidableEq

/-- A YouGile project from `/projects`. `users` is the key list of the
membership map; `none` models a payload whose `users` field is not a dict
(which the resolver skips); a missing or `None` field becomes `some []`
(Python's `p.get("users") or {}`). -/
structure Project where
  id : Option String := none
  title : Option String := none
  deleted : Bool := false
  users : Option (List String) := none
deriving DecidableEq

/-- A Loop (Mattermost) user profile. -/
structure MmUser where
  first_name : String := ""
  last_name : String := ""
  username : String := ""
deriving DecidableEq

/-- The `deadline` object sent to YouGile task creation. -/
structure DeadlineField where
  deadline : Int
  withTime : Bool
deriving DecidableEq

/-- The JSON body of `POST /tasks` as built by `yg_create_task`. -/
structure TaskBody where
  title : String
  columnId : Option String
  description : String
  assigned : Option (List String)
  deadline : Option DeadlineField
deriving DecidableEq

/-- `yg_create_task(title, column_id, description, assignee_id, deadline)`
from app.py: the body construction. A falsy `assignee_id` adds no
`assigned` field; a `None` deadline adds no `deadline` field; otherwise
the deadline is noon UTC of the date in epoch milliseconds
(`datetime(y, m, d, 12, 0, 0, tzinfo=timezone.utc).timestamp() * 1000`,
which on epoch-day `d` is `(d * 86400 + 12 * 3600) * 1000`). -/
def yg_create_task_body (title : String) (column_id : Option String)
    (description : String) (assignee_id : Option String)
    (deadline : Option Int) : TaskBody :=
  { title := title
    columnId := column_id
    description := description
    assigned :=
      match assignee_id with
      | some a => if a = "" then none else some [a]
      | none => none
    deadline := deadline.map fun d =>
      { deadline := (d * 86400 + 12 * 3600) * 1000, withTime := false } }

/-- The interactive attachment carried by a bot message, by wizard step. -/
inductive Attach where
  | projectSelect (options : List (String × String)) : Attach
  | boardSelect (options : List (String × String)) : Attach
  | columnSelect (options : List (String × String)) : Attach
  | assigneeSelect (options : List (String × String)) : Attach
  | deadlineButtons : Attach
  | finishButtons : Attach
  | askTitle : Attach
deriving DecidableEq

/-- An outbound command against the two collaborators. -/
inductive Cmd where
  | post (channel_id message : String) (attach : Option Attach) (root_id : Option String) : Cmd
  | patchPost (post_id message : String) (attach : Option Attach) : Cmd
  | deletePost (post_id : String) : Cmd
  | createTask (body : TaskBody) : Cmd
  | sendChatMessage (chat_id text : String) : Cmd
  | addReaction (post_id emoji : String) : Cmd
deriving DecidableEq

/-- Select options from boards (`{b["id"]: b.get("title", "Без имени")
for b in boards if b.get("id")}` and the parallel attachment options). -/
def boardOptions (boards : List Board) : List (String × String) :=
  boards.filterMap fun b => if b.id = "" then none else some (b.id, b.title.getD "Без имени")

/-- Select options from columns. -/
def columnOptions (columns : List Column) : List (String × String) :=
  columns.filterMap fun c => if c.id = "" then none else some (c.id, c.title.getD "Без имени")

/-- Python dict `.get` on an options mapping stored as a list (later
entries overwrite earlier ones, as dict construction does). -/
def dictGet (l : List (String × String)) (k : String) : Option String :=
  (l.reverse.find? fun p => p.1 == k).map Prod.snd

/-- `(first_name + " " + last_name).strip() or username`. -/
def mm_full_name (u : MmUser) : String :=
  pyOrStr (pyStrip (pyStrip u.first_name ++ " " ++ pyStrip u.last_name)) u.username

/-- `build_task_summary(...)` from app.py. -/
def build_task_summary (task_title project_title board_title assignee_name
    deadline_str task_url : String) : String :=
  let s := "Задача \"" ++ task_title ++ "\" создана в проекте: " ++ project_title ++
    ", доска: " ++ board_title ++ ", ответственный: " ++ assignee_name ++
    ", дедлайн: " ++ deadline_str ++ "."
  if task_url = "" then s else s ++ "\nСсылка: " ++ task_url

/-- `send_task_summary(...)` from app.py: thread post, optional channel
copy, optional "(Автозавершение диалога)" marker. -/
def send_task_summary (channel_id root_post_id summary : String)
    (to_channel auto : Bool) : List Cmd :=
  [Cmd.post channel_id summary none (some root_post_id)] ++
  (if to_channel then [Cmd.post channel_id summary none none] else []) ++
  (if auto then [Cmd.post channel_id "(Автозавершение диалога)" none (some root_post_id)] else [])

/-! ### The Allowed-Project Resolver (app.py lines 571–630) -/

/-- The roster map `user_id -> email` built from one `/users` call:
entries with a falsy id or falsy normalised email are skipped; later
entries overwrite earlier ones. -/
def user_email_by_id (all_users : List YgUser) : String → Option String :=
  all_users.foldl
    (fun acc u =>
      match u.id with
      | some uid =>
          let e := pyLower (pyStrip (u.email.getD ""))
          if uid ≠ "" ∧ e ≠ "" then (fun x => if x = uid then some e else acc x) else acc
      | none => acc)
    (fun _ => none)

/-- `get_allowed_projects_for_mm_user` from app.py, with the three
network reads (the actor's Loop email, the roster, the project list) as
parameters. `mm_email_raw = none` models a failed profile fetch. -/
def get_allowed_projects_for_mm_user (mm_email_raw : Option String)
    (all_users : List YgUser) (all_projects : List Project) : List Project :=
  let mm_email := pyLower (pyStrip (mm_email_raw.getD ""))
  if mm_email = "" then []
  else
    let emailOf := user_email_by_id all_users
    all_projects.filter fun p =>
      if p.deleted then false
      else
        match p.users with
        | none => false
        | some ids => ids.any fun uid =>
            match emailOf uid with
            | some e => (e != "") && (e == mm_email)
            | none => false

/-! ### `create_task_and_update_post` (app.py lines 1703–1805)

Network reads become parameters: the Loop profile of the actor, the id
of the created task, the display URL assembled from the task response
(`slugify` / team-id string work, presentation only), and the id of the
success post the handler creates. -/

/-- `create_task_and_update_post(task_title, state, user_id, post_id)`:
creates the task from the state's column/assignee/deadline, patches the
deadline post, posts the "✅ Задача создана" message with the finish
button (when the state knows its channel), and moves the dialog to
`OPTIONAL_ATTACH`. -/
def create_task_and_update_post (store : Store) (k : DKey) (now : Int)
    (task_title : String) (st : DialogState) (mm_user : MmUser)
    (task_id : Option String) (task_url : String)
    (post_id new_post_id : String) : Store × List Cmd :=
  let full_name := mm_full_name mm_user
  let description :=
    "Создано из Loop пользователем " ++ full_name ++ " (@" ++ mm_user.username ++ ")"
  let body := yg_create_task_body task_title st.column_id description st.assignee_id st.deadline
  let fd := format_deadline st.deadline_choice st.deadline st.deadline_display
  let deadline_str := fd.2
  let patchCmd :=
    Cmd.patchPost post_id ("Дедлайн для задачи \"" ++ task_title ++ "\": " ++ deadline_str ++ ".") none
  let ch := pyGetOr st.channel_id ""
  let successCmds :=
    if ch = "" then []
    else [Cmd.post ch ("✅ Задача \"" ++ task_title ++ "\" создана.\nСсылка: " ++ task_url)
            (some Attach.finishButtons) st.root_post_id]
  let post_ids1 := if ch = "" then st.post_ids else st.post_ids ++ [new_post_id]
  let upd := set_state store k now fun s =>
    { s with step := some "OPTIONAL_ATTACH", yougile_task_id := task_id,
             task_url := some task_url, deadline_str := some deadline_str,
             post_ids := post_ids1 }
  (upd.1, [Cmd.createTask body, patchCmd] ++ successCmds)

/-! ### The `mm_actions` step handlers (app.py lines 1064–1696) -/

/-- The `CHOOSE_DEADLINE` branch of `mm_actions`: stores the choice;
"custom" patches the prompt and waits for free text; "none" stores no
deadline and creates at once; any other choice computes
`calc_deadline(choice)` against the wall-clock date `clickDate` at the
moment the handler runs and creates at once. -/
def chooseDeadlineHandler (store : Store) (k : DKey) (now clickDate : Int)
    (deadline_choice : Option String) (task_title : String) (post_id : String)
    (mm_user : MmUser) (task_id : Option String)
    (task_url new_post_id : String) : Store × List Cmd :=
  let s1 := set_state store k now fun s =>
    { s with step := some "CHOOSE_DEADLINE", deadline_choice := deadline_choice }
  if deadline_choice = some "custom" then
    (s1.1, [Cmd.patchPost post_id
      ("Введите дату дедлайна для задачи \"" ++ task_title ++
       "\" в этом треде в формате YYYY-MM-DD, например 2025-11-13.") none])
  else if deadline_choice = some "none" then
    let s2 := set_state s1.1 k now fun s => { s with deadline := none }
    create_task_and_update_post s2.1 k now task_title s2.2 mm_user task_id task_url post_id new_post_id
  else
    let dd := calc_deadline clickDate deadline_choice
    let s2 := set_state s1.1 k now fun s => { s with deadline := some dd }
    create_task_and_update_post s2.1 k now task_title s2.2 mm_user task_id task_url post_id new_post_id

/-- The `CANCEL` branch of `mm_actions`: deletes every post recorded in
the state's `post_ids`, removes the dialog record, and posts the
cancellation notice. -/
def cancelHandler (store : Store) (k : DKey) (ctx_task_title : Option String)
    (channel_id : String) : Store × List Cmd :=
  let st := (lookupS store k).getD {}
  let ch := st.channel_id.getD channel_id
  let task_title := pyGetOr (pyOrOpt ctx_task_title st.task_title) "Без названия"
  let msg :=
    if task_title = "Без названия" ∨ task_title = "" then "Хорошо, создание задачи отменено."
    else "Хорошо, создание задачи \"" ++ task_title ++ "\" отменено."
  (clear_state store k, st.post_ids.map Cmd.deletePost ++ [Cmd.post ch msg none (some k.2)])

/-- The `FINISH` branch of `mm_actions`: posts the summary to the thread
and the channel, patches the interactive post, removes the record. -/
def finishHandler (store : Store) (k : DKey) (task_title : String)
    (channel_id post_id : String) : Store × List Cmd :=
  let st := (lookupS store k).getD {}
  let summary := build_task_summary task_title (st.project_title.getD "без названия")
    (st.board_title.getD "без названия") (st.assignee_name.getD "не указан")
    (st.deadline_str.getD "без дедлайна") (st.task_url.getD "")
  let ch := st.channel_id.getD channel_id
  (clear_state store k,
   send_task_summary ch k.2 summary true false ++
     [Cmd.patchPost post_id ("Диалог по задаче \"" ++ task_title ++ "\" завершён.") none])

/-- `auto_finish_dialog(user_id, root_post_id)` from app.py: no record or
no recorded channel means no action; otherwise the system-generated
summary is posted and the record removed. -/
def auto_finish_dialog (store : Store) (k : DKey) : Store × List Cmd :=
  match lookupS store k with
  | none => (store, [])
  | some st =>
      match st.channel_id with
      | none => (store, [])
      | some ch =>
          if ch = "" then (store, [])
          else
            let summary := build_task_summary (st.task_title.getD "Без названия")
              (st.project_title.getD "без названия") (st.board_title.getD "без названия")
              (st.assignee_name.getD "не указан") (st.deadline_str.getD "без дедлайна")
              (st.task_url.getD "")
            (clear_state store k, send_task_summary ch k.2 summary false true)

/-! ### The Timeout Sweeper (app.py `auto_cleanup_loop`, lines 2253–2277) -/

/-- One dialog's eligibility test inside the sweep: the snapshot state is
in `OPTIONAL_ATTACH`, has a truthy `updated_at or created_at`, and has
been idle strictly longer than `AUTO_FINISH_TIMEOUT_MINUTES * 60`. -/
def sweepEligible (now threshold_minutes : Int) (st : DialogState) : Bool :=
  (st.step == some "OPTIONAL_ATTACH") &&
    (match pyOrTime st.updated_at st.created_at with
     | some u => decide (threshold_minutes * 60 < now - u)
     | none => false)

/-- A dialog state that knows its channel (a truthy `channel_id`), the
precondition for `auto_finish_dialog` to act. -/
def chOk (st : DialogState) : Bool :=
  match st.channel_id with
  | some ch => ch != ""
  | none => false

/-- One iteration of the sweeper's `for` loop over the snapshot: an
eligible dialog is auto-finished against the live store unless its
processing fails (`fail`, the caught per-dialog exception); any other
dialog is left alone. -/
def sweepStep (now threshold_minutes : Int) (fail : DKey → Bool)
    (acc : Store) (item : DKey × DialogState) : Store :=
  if sweepEligible now threshold_minutes item.2 then
    (if fail item.1 then acc else (auto_finish_dialog acc item.1).1)
  else acc

/-- One full sweep: iterate the snapshot `list(STATE.items())`, folding
the per-dialog step over the live store. -/
def auto_cleanup_sweep (now threshold_minutes : Int) (fail : DKey → Bool)
    (store : Store) : Store :=
  store.foldl (sweepStep now threshold_minutes fail) store

/-! ### Project and board selection (app.py lines 1368–1495) -/

/-- The `CHOOSE_PROJECT` branch of `mm_actions`. The boards of the chosen
project and (in the single-board case) the columns of that board are the
fetched parameters; `new_post_id` is the id of the prompt the handler
posts. Zero boards abort with a message; exactly one board is
auto-selected and the column prompt is posted; two or more boards get the
board prompt. -/
def chooseProjectHandler (store : Store) (k : DKey) (now : Int)
    (selected : Option String) (task_title : String)
    (channel_id post_id : String) (boards : List Board) (columns : List Column)
    (new_post_id : String) : Store × List Cmd :=
  match selected with
  | none => (store, [])
  | some project_id =>
    if project_id = "" then (store, [])
    else
      let st0 := (lookupS store k).getD {}
      let project_title := (dictGet st0.project_options project_id).getD "без названия"
      let s1 := set_state store k now fun s =>
        { s with step := some "CHOOSE_PROJECT", task_title := some task_title,
                 project_id := some project_id, project_title := some project_title,
                 channel_id := some channel_id }
      let patchCmd :=
        Cmd.patchPost post_id ("Проект для задачи \"" ++ task_title ++ "\": " ++ project_title) none
      match boards with
      | [] =>
          (s1.1, [patchCmd,
            Cmd.post channel_id ("В проекте \"" ++ project_title ++ "\" нет досок, задачу создать нельзя.")
              none (some k.2)])
      | [board] =>
          let board_title := board.title.getD "без названия"
          let s2 := set_state s1.1 k now fun s =>
            { s with step := some "CHOOSE_BOARD", board_id := some board.id,
                     board_title := some board_title }
          match columns with
          | [] =>
              (s2.1, [patchCmd,
                Cmd.post channel_id ("На доске \"" ++ board_title ++ "\" нет колонок, задачу создать нельзя.")
                  none (some k.2)])
          | _ =>
              let s3 := set_state s2.1 k now fun s =>
                { s with column_options := columnOptions columns }
              let s4 := set_state s3.1 k now fun s =>
                { s with post_ids := s2.2.post_ids ++ [new_post_id] }
              (s4.1, [patchCmd,
                Cmd.post channel_id ("Выберите колонку для задачи \"" ++ task_title ++ "\"")
                  (some (Attach.columnSelect (columnOptions columns))) (some k.2)])
      | _ =>
          let s2 := set_state s1.1 k now fun s =>
            { s with board_options := boardOptions boards }
          let s3 := set_state s2.1 k now fun s =>
            { s with post_ids := s1.2.post_ids ++ [new_post_id] }
          (s3.1, [patchCmd,
            Cmd.post channel_id ("Выберите доску для задачи \"" ++ task_title ++ "\"")
              (some (Attach.boardSelect (boardOptions boards))) (some k.2)])

/-- The `CHOOSE_BOARD` branch of `mm_actions`: zero columns on the chosen
board abort with a patched message; otherwise the column prompt follows. -/
def chooseBoardHandler (store : Store) (k : DKey) (now : Int)
    (selected : Option String) (ctx_project_id : Option String) (task_title : String)
    (channel_id post_id : String) (columns : List Column)
    (new_post_id : String) : Store × List Cmd :=
  match selected with
  | none => (store, [])
  | some board_id =>
    if board_id = "" then (store, [])
    else
      let st0 := (lookupS store k).getD {}
      let project_id := pyOrOpt st0.project_id ctx_project_id
      let board_title := (dictGet st0.board_options board_id).getD "без названия"
      let s1 := set_state store k now fun s =>
        { s with step := some "CHOOSE_BOARD", project_id := project_id,
                 board_id := some board_id, board_title := some board_title }
      match columns with
      | [] =>
          (s1.1, [Cmd.patchPost post_id
            ("На доске \"" ++ board_title ++ "\" нет колонок, задачу создать нельзя.") none])
      | _ =>
          let s2 := set_state s1.1 k now fun s =>
            { s with column_options := columnOptions columns }
          let s3 := set_state s2.1 k now fun s =>
            { s with post_ids := s1.2.post_ids ++ [new_post_id] }
          (s3.1, [Cmd.patchPost post_id
              ("Доска для задачи \"" ++ task_title ++ "\": " ++ board_title) none,
            Cmd.post channel_id ("Выберите колонку для задачи \"" ++ task_title ++ "\"")
              (some (Attach.columnSelect (columnOptions columns))) (some k.2)])

/-! ### `start_task_creation` (app.py lines 1847–1979) -/

/-- `start_task_creation(user_id, channel_id, root_id, title)`: no
allowed projects aborts; a channel default project found among the
allowed ones skips the project prompt and runs the same
zero/one/many-boards policy as `CHOOSE_PROJECT`; otherwise the project
prompt is posted. -/
def start_task_creation (store : Store) (k : DKey) (now : Int)
    (allowed_projects : List Project) (default_entry : Option (String × String))
    (channel_id title : String) (boards : List Board) (columns : List Column)
    (new_post_id : String) : Store × List Cmd :=
  match allowed_projects with
  | [] =>
      (store, [Cmd.post channel_id
        ("Извините, но кажется у вас нет доступа к проектам в нашей доске YouGile.\n" ++
         "Обратитесь за помощью к администратору.\nМне очень жаль :cry:") none (some k.2)])
  | _ =>
    let default_project := default_entry.bind fun de =>
      allowed_projects.find? fun p => p.id == some de.1
    match default_project with
    | some p =>
        let project_id := p.id.getD ""
        let project_title := p.title.getD "без названия"
        let s1 := set_state store k now fun s =>
          { s with step := some "CHOOSE_PROJECT", task_title := some title,
                   root_post_id := some k.2, channel_id := some channel_id,
                   project_id := some project_id, project_title := some project_title,
                   post_ids := [] }
        match boards with
        | [] =>
            (s1.1, [Cmd.post channel_id
              ("В проекте \"" ++ project_title ++ "\" нет досок, задачу создать нельзя.")
                none (some k.2)])
        | [board] =>
            let board_title := board.title.getD "без названия"
            let s2 := set_state s1.1 k now fun s =>
              { s with step := some "CHOOSE_BOARD", board_id := some board.id,
                       board_title := some board_title }
            match columns with
            | [] =>
                (s2.1, [Cmd.post channel_id
                  ("На доске \"" ++ board_title ++ "\" нет колонок, задачу создать нельзя.")
                    none (some k.2)])
            | _ =>
                let s3 := set_state s2.1 k now fun s =>
                  { s with column_options := columnOptions columns }
                let s4 := set_state s3.1 k now fun s =>
                  { s with post_ids := s2.2.post_ids ++ [new_post_id] }
                (s4.1, [Cmd.post channel_id ("Выберите колонку для задачи \"" ++ title ++ "\"")
                  (some (Attach.columnSelect (columnOptions columns))) (some k.2)])
        | _ =>
            let s2 := set_state s1.1 k now fun s =>
              { s with board_options := boardOptions boards }
            let s3 := set_state s2.1 k now fun s =>
              { s with post_ids := s1.2.post_ids ++ [new_post_id] }
            (s3.1, [Cmd.post channel_id ("Выберите доску для задачи \"" ++ title ++ "\"")
              (some (Attach.boardSelect (boardOptions boards))) (some k.2)])
    | none =>
        let project_options := allowed_projects.filterMap fun p =>
          p.id.bind fun pid => if pid = "" then none else some (pid, p.title.getD "Без имени")
        let store1 := setS store k
          { step := some "CHOOSE_PROJECT", task_title := some title,
            root_post_id := some k.2, channel_id := some channel_id,
            post_ids := [], project_options := project_options }
        let s2 := set_state store1 k now fun s => { s with post_ids := [new_post_id] }
        (s2.1, [Cmd.post channel_id ("Выберите проект для задачи \"" ++ title ++ "\"")
          (some (Attach.projectSelect project_options)) (some k.2)])

/-! ### The custom-date wait (`run_ws_bot`, app.py lines 2113–2148) -/

/-- The plain-text message step while the dialog is in
`CHOOSE_DEADLINE`/`custom` (the caller has checked those two fields): an
empty message is ignored; an unparseable date posts the retry message and
changes nothing; a parsed date is stored and task creation runs against
the last recorded prompt post. -/
def customDateStep (store : Store) (k : DKey) (now : Int) (channel_id : String)
    (message : String) (mm_user : MmUser) (task_id : Option String)
    (task_url new_post_id : String) : Store × List Cmd :=
  let text := pyStrip message
  if text = "" then (store, [])
  else
    match strptimeYMD text with
    | none =>
        (store, [Cmd.post channel_id
          ("Не удалось разобрать дату \"" ++ text ++
           "\". Используйте формат YYYY-MM-DD, например 2025-11-13.") none (some k.2)])
    | some ymd =>
        let d := daysFromCivil ymd.1 ymd.2.1 ymd.2.2
        let s1 := set_state store k now fun s =>
          { s with deadline := some d, deadline_display := some text }
        let task_title := s1.2.task_title.getD "Без названия"
        match s1.2.post_ids.getLast? with
        | some target =>
            create_task_and_update_post s1.1 k now task_title s1.2 mm_user task_id task_url
              target new_post_id
        | none =>
            (s1.1, [Cmd.post channel_id
              ("✅ Задача \"" ++ task_title ++ "\" создана (кастомный дедлайн).")
                none (some k.2)])

/-! ### Command classification helpers -/

/-- The task-creation requests among a command list. -/
def createdBodies (cmds : List Cmd) : List TaskBody :=
  cmds.filterMap fun c =>
    match c with
    | Cmd.createTask b => some b
    | _ => none

/-- The ids of the posts a command list deletes. -/
def deletedIds (cmds : List Cmd) : List String :=
  cmds.filterMap fun c =>
    match c with
    | Cmd.deletePost p => some p
    | _ => none

/-- A board-choice prompt: a posted or patched message carrying the
board select. -/
def isBoardPrompt (c : Cmd) : Bool :=
  match c with
  | Cmd.post _ _ (some (Attach.boardSelect _)) _ => true
  | Cmd.patchPost _ _ (some (Attach.boardSelect _)) => true
  | _ => false

/-- A column-choice prompt: a posted or patched message carrying the
column select. -/
def isColumnPrompt (c : Cmd) : Bool :=
  match c with
  | Cmd.post _ _ (some (Attach.columnSelect _)) _ => true
  | Cmd.patchPost _ _ (some (Attach.columnSelect _)) => true
  | _ => false

/-! ## Theorems about the specification's statements -/

/-- C10: for every input that is not (case-insensitively) one of the five
recognised deadline choices — including `None` and the empty string —
`calc_deadline` totally returns today's date as a fallback. -/
theorem c10_calc_deadline_fallback (today : Int) (choice : Option String)
    (h : pyLower (choice.getD "") ∉
      (["today", "tomorrow", "day_after_tomorrow", "week", "month"] : List String)) :
    calc_deadline today choice = today := by
  have h1 : pyLower (choice.getD "") ≠ "today" := fun hc => h (by simp [hc])
  have h2 : pyLower (choice.getD "") ≠ "tomorrow" := fun hc => h (by simp [hc])
  have h3 : pyLower (choice.getD "") ≠ "day_after_tomorrow" := fun hc => h (by simp [hc])
  have h4 : pyLower (choice.getD "") ≠ "week" := fun hc => h (by simp [hc])
  have h5 : pyLower (choice.getD "") ≠ "month" := fun hc => h (by simp [hc])
  simp [calc_deadline, h1, h2, h3, h4, h5]

/-- Instantiation of `c10_calc_deadline_fallback`: the unrecognised
choice "Someday" (and `None`) yield today's date. -/
theorem c10_witness :
    calc_deadline 20500 (some "Someday") = 20500 ∧ calc_deadline 20500 none = 20500 :=
  ⟨c10_calc_deadline_fallback 20500 (some "Someday") (by decide),
   c10_calc_deadline_fallback 20500 none (by decide)⟩

theorem calc_deadline_today (t : Int) : calc_deadline t (some "today") = t := rfl

theorem calc_deadline_tomorrow (t : Int) : calc_deadline t (some "tomorrow") = t + 1 := rfl

theorem calc_deadline_dat (t : Int) : calc_deadline t (some "day_after_tomorrow") = t + 2 := rfl

theorem calc_deadline_week (t : Int) : calc_deadline t (some "week") = t + 7 := rfl

theorem calc_deadline_month (t : Int) : calc_deadline t (some "month") = t + 30 := rfl

/-- After `create_task_and_update_post`, the dialog at `k` is in
`OPTIONAL_ATTACH` and keeps the deadline the store held for `k`. -/
theorem create_task_lookup (store : Store) (k : DKey) (now : Int)
    (title : String) (st : DialogState) (mm : MmUser) (tid : Option String)
    (url pid npid : String) :
    ∃ st', lookupS (create_task_and_update_post store k now title st mm tid url pid npid).1 k
        = some st'
      ∧ st'.deadline = ((lookupS store k).getD {}).deadline
      ∧ st'.step = some "OPTIONAL_ATTACH" := by
  simp only [create_task_and_update_post]
  exact ⟨_, set_state_lookup_self _ _ _ _, rfl, rfl⟩

/-- After a non-custom, non-"none" deadline click, the stored dialog
deadline is `calc_deadline` of the click date and the dialog is in
`OPTIONAL_ATTACH`. -/
theorem chooseDeadlineHandler_state (store : Store) (k : DKey) (now clickDate : Int)
    (c : Option String) (title post_id : String) (mm : MmUser) (tid : Option String)
    (url npid : String) (hcustom : c ≠ some "custom") (hnone : c ≠ some "none") :
    ∃ st', lookupS (chooseDeadlineHandler store k now clickDate c title post_id
        mm tid url npid).1 k = some st'
      ∧ st'.deadline = some (calc_deadline clickDate c)
      ∧ st'.step = some "OPTIONAL_ATTACH" := by
  simp only [chooseDeadlineHandler, if_neg hcustom, if_neg hnone]
  obtain ⟨st', hl, hd, hs⟩ := create_task_lookup _ _ _ _ _ _ _ _ _ _
  refine ⟨st', hl, ?_, hs⟩
  rw [hd, set_state_lookup_self, Option.getD_some]
  rfl

/-- C2: for every deadline choice among today / tomorrow /
day_after_tomorrow / week / month, `calc_deadline` anchored at the
wall-clock date of the click returns exactly that date plus 0 / 1 / 2 /
7 / 30 days, and after the `CHOOSE_DEADLINE` handler runs, the stored
dialog deadline is that same date — for any prior dialog state (any
creation time), so the anchor is the click time, never the
dialog-creation time. -/
theorem c2_deadline_offsets_anchor_click (store : Store) (k : DKey)
    (now clickDate : Int) (choice : String) (off : Int)
    (task_title post_id : String) (mm_user : MmUser) (task_id : Option String)
    (task_url new_post_id : String)
    (h : (choice, off) ∈ ([("today", 0), ("tomorrow", 1), ("day_after_tomorrow", 2),
      ("week", 7), ("month", 30)] : List (String × Int))) :
    calc_deadline clickDate (some choice) = clickDate + off ∧
    ∃ st', lookupS (chooseDeadlineHandler store k now clickDate (some choice)
        task_title post_id mm_user task_id task_url new_post_id).1 k = some st' ∧
      st'.deadline = some (clickDate + off) := by
  simp only [List.mem_cons, List.not_mem_nil, or_false, Prod.mk.injEq] at h
  have main : ∀ c0 : String, some c0 ≠ some "custom" → some c0 ≠ some "none" →
      ∃ st', lookupS (chooseDeadlineHandler store k now clickDate (some c0)
          task_title post_id mm_user task_id task_url new_post_id).1 k = some st' ∧
        st'.deadline = some (calc_deadline clickDate (some c0)) := by
    intro c0 h1 h2
    obtain ⟨st', hl, hd, _⟩ := chooseDeadlineHandler_state store k now clickDate (some c0)
      task_title post_id mm_user task_id task_url new_post_id h1 h2
    exact ⟨st', hl, hd⟩
  rcases h with ⟨rfl, rfl⟩ | ⟨rfl, rfl⟩ | ⟨rfl, rfl⟩ | ⟨rfl, rfl⟩ | ⟨rfl, rfl⟩
  · obtain ⟨st', hl, hd⟩ := main "today" (by decide) (by decide)
    rw [calc_deadline_today] at hd
    refine ⟨by rw [calc_deadline_today]; omega, st', hl, by rw [hd]; norm_num⟩
  · obtain ⟨st', hl, hd⟩ := main "tomorrow" (by decide) (by decide)
    rw [calc_deadline_tomorrow] at hd
    exact ⟨calc_deadline_tomorrow clickDate, st', hl, hd⟩
  · obtain ⟨st', hl, hd⟩ := main "day_after_tomorrow" (by decide) (by decide)
    rw [calc_deadline_dat] at hd
    exact ⟨calc_deadline_dat clickDate, st', hl, hd⟩
  · obtain ⟨st', hl, hd⟩ := main "week" (by decide) (by decide)
    rw [calc_deadline_week] at hd
    exact ⟨calc_deadline_week clickDate, st', hl, hd⟩
  · obtain ⟨st', hl, hd⟩ := main "month" (by decide) (by decide)
    rw [calc_deadline_month] at hd
    exact ⟨calc_deadline_month clickDate, st', hl, hd⟩

/-- Instantiation of `c2_deadline_offsets_anchor_click`: clicking
"tomorrow" on wall-clock day 20000 stores day 20001, whatever the store
held. -/
theorem c2_witness :
    calc_deadline 20000 (some "tomorrow") = 20000 + 1 ∧
    ∃ st', lookupS (chooseDeadlineHandler [] ("u1", "r1") 500 20000 (some "tomorrow")
        "Task" "p1" {} none "url" "np").1 ("u1", "r1") = some st' ∧
      st'.deadline = some (20000 + 1) :=
  c2_deadline_offsets_anchor_click [] ("u1", "r1") 500 20000 "tomorrow" 1
    "Task" "p1" {} none "url" "np" (by decide)

/-- `create_task_and_update_post` issues exactly one task-creation
request, built by `yg_create_task_body` from the state's column,
assignee and deadline. -/
theorem createdBodies_create (store : Store) (k : DKey) (now : Int)
    (title : String) (st : DialogState) (mm : MmUser) (tid : Option String)
    (url pid npid : String) :
    createdBodies (create_task_and_update_post store k now title st mm tid url pid npid).2
      = [yg_create_task_body title st.column_id
          ("Создано из Loop пользователем " ++ mm_full_name mm ++ " (@" ++ mm.username ++ ")")
          st.assignee_id st.deadline] := by
  simp only [create_task_and_update_post]
  by_cases hch : pyGetOr st.channel_id "" = "" <;>
    simp [createdBodies, hch, List.filterMap]

/-- C3: choosing "none" sends a task-creation request with no deadline
field; any non-custom, non-"none" choice sends the epoch-millisecond
instant of exactly 12:00:00 UTC on the computed date; and in general the
request body carries no deadline exactly when the chosen date is absent,
and noon UTC of the chosen date otherwise. -/
theorem c3_deadline_field_none_or_noon_utc (store : Store) (k : DKey)
    (now clickDate : Int) (title post_id : String) (mm : MmUser)
    (tid : Option String) (url npid : String)
    (cid aid : Option String) (descr : String) :
    (∃ b, createdBodies (chooseDeadlineHandler store k now clickDate (some "none")
        title post_id mm tid url npid).2 = [b] ∧ b.deadline = none) ∧
    (∀ c : Option String, c ≠ some "custom" → c ≠ some "none" →
      ∃ b, createdBodies (chooseDeadlineHandler store k now clickDate c
          title post_id mm tid url npid).2 = [b] ∧
        b.deadline = some { deadline := noonUtcMs (calc_deadline clickDate c),
                            withTime := false }) ∧
    (∀ d : Option Int, (yg_create_task_body title cid descr aid d).deadline
        = d.map fun z => { deadline := noonUtcMs z, withTime := false }) := by
  have harith : ∀ z : Int, (z * 86400 + 12 * 3600) * 1000 = noonUtcMs z := by
    intro z
    simp only [noonUtcMs]
    ring
  refine ⟨?_, ?_, ?_⟩
  · simp only [chooseDeadlineHandler,
      if_neg (by decide : ¬((some "none" : Option String) = some "custom")), ite_true,
      reduceIte]
    rw [createdBodies_create]
    exact ⟨_, rfl, rfl⟩
  · intro c h1 h2
    simp only [chooseDeadlineHandler, if_neg h1, if_neg h2]
    rw [createdBodies_create]
    refine ⟨_, rfl, ?_⟩
    show (some { deadline := (calc_deadline clickDate c * 86400 + 12 * 3600) * 1000,
                 withTime := false } : Option DeadlineField)
      = some { deadline := noonUtcMs (calc_deadline clickDate c), withTime := false }
    rw [harith]
  · intro d
    cases d with
    | none => rfl
    | some z =>
        show (some { deadline := (z * 86400 + 12 * 3600) * 1000,
                     withTime := false } : Option DeadlineField)
          = Option.map (fun w => ({ deadline := noonUtcMs w, withTime := false } : DeadlineField)) (some z)
        rw [Option.map_some', harith]

/-- Instantiation of `c3_deadline_field_none_or_noon_utc` at the "none"
and "week" choices on day 20000. -/
theorem c3_witness :
    (∃ b, createdBodies (chooseDeadlineHandler [] ("u1", "r1") 500 20000 (some "none")
        "Task" "p1" {} none "url" "np").2 = [b] ∧ b.deadline = none) ∧
    (∃ b, createdBodies (chooseDeadlineHandler [] ("u1", "r1") 500 20000 (some "week")
        "Task" "p1" {} none "url" "np").2 = [b] ∧
      b.deadline = some { deadline := noonUtcMs 20007, withTime := false }) := by
  have h := c3_deadline_field_none_or_noon_utc [] ("u1", "r1") 500 20000
    "Task" "p1" {} none "url" "np" none none ""
  refine ⟨h.1, ?_⟩
  have h2 := h.2.1 (some "week") (by decide) (by decide)
  rw [calc_deadline_week] at h2
  exact (by norm_num : (20000 : Int) + 7 = 20007) ▸ h2

theorem deletedIds_map (l : List String) : deletedIds (l.map Cmd.deletePost) = l := by
  induction l with
  | nil => rfl
  | cons a t ih => exact congrArg (List.cons a) ih

theorem deletedIds_append (l1 l2 : List Cmd) :
    deletedIds (l1 ++ l2) = deletedIds l1 ++ deletedIds l2 :=
  List.filterMap_append _ _ _

/-- C8: on CANCEL, the handler issues deletions for exactly the message
ids recorded in the dialog's `post_ids` (in order, no more, no fewer) and
removes the dialog record. -/
theorem c8_cancel_deletes_exact (store : Store) (k : DKey) (st : DialogState)
    (ctx_task_title : Option String) (channel_id : String)
    (h : lookupS store k = some st) :
    deletedIds (cancelHandler store k ctx_task_title channel_id).2 = st.post_ids ∧
    lookupS (cancelHandler store k ctx_task_title channel_id).1 k = none := by
  constructor
  · simp only [cancelHandler, h, Option.getD_some]
    rw [deletedIds_append, deletedIds_map]
    simp [deletedIds]
  · exact lookupS_removeS_self store k

/-- Instantiation of `c8_cancel_deletes_exact`: a dialog with three
recorded prompts gets exactly those three deletions and vanishes. -/
theorem c8_witness :
    deletedIds (cancelHandler [(("u1", "r1"), { post_ids := ["a", "b", "c"] })]
        ("u1", "r1") none "chan").2 = ["a", "b", "c"] ∧
    lookupS (cancelHandler [(("u1", "r1"), { post_ids := ["a", "b", "c"] })]
        ("u1", "r1") none "chan").1 ("u1", "r1") = none :=
  c8_cancel_deletes_exact [(("u1", "r1"), { post_ids := ["a", "b", "c"] })]
    ("u1", "r1") { post_ids := ["a", "b", "c"] } none "chan" (by decide)

/-- C4: the store binds each dialog key at most once (`keysNodup` is
preserved by every mutation, and `set_state`/`setS` replace rather than
duplicate), and after CANCEL, FINISH, or the sweeper's auto-finish (on a
dialog that knows its channel) the key is absent. -/
theorem c4_store_unique_and_cleared (store : Store) (k : DKey)
    (ctx_task_title : Option String) (channel_id task_title post_id : String)
    (hnod : keysNodup store) :
    lookupS (cancelHandler store k ctx_task_title channel_id).1 k = none ∧
    lookupS (finishHandler store k task_title channel_id post_id).1 k = none ∧
    (∀ st ch, lookupS store k = some st → st.channel_id = some ch → ch ≠ "" →
      lookupS (auto_finish_dialog store k).1 k = none) ∧
    keysNodup (cancelHandler store k ctx_task_title channel_id).1 ∧
    keysNodup (finishHandler store k task_title channel_id post_id).1 ∧
    keysNodup (auto_finish_dialog store k).1 ∧
    (∀ (now : Int) (f : DialogState → DialogState), keysNodup (set_state store k now f).1) := by
  refine ⟨lookupS_removeS_self store k, lookupS_removeS_self store k, ?_, ?_, ?_, ?_, ?_⟩
  · intro st ch h1 h2 h3
    simp only [auto_finish_dialog, h1, h2, if_neg h3]
    exact lookupS_removeS_self store k
  · exact keysNodup_removeS store k hnod
  · exact keysNodup_removeS store k hnod
  · rcases hL : lookupS store k with _ | st
    · simpa only [auto_finish_dialog, hL] using hnod
    · rcases hC : st.channel_id with _ | ch
      · simpa only [auto_finish_dialog, hL, hC] using hnod
      · by_cases hE : ch = ""
        · simpa only [auto_finish_dialog, hL, hC, if_pos hE] using hnod
        · simp only [auto_finish_dialog, hL, hC, if_neg hE]
          exact keysNodup_removeS store k hnod
  · intro now f
    exact keysNodup_setS store k _ hnod

/-- Instantiation of `c4_store_unique_and_cleared` on a one-dialog store
whose dialog knows its channel. -/
theorem c4_witness :
    lookupS (cancelHandler [(("u1", "r1"), { channel_id := some "chan" })]
        ("u1", "r1") none "chan").1 ("u1", "r1") = none ∧
    lookupS (finishHandler [(("u1", "r1"), { channel_id := some "chan" })]
        ("u1", "r1") "Task" "chan" "p1").1 ("u1", "r1") = none ∧
    (∀ st ch, lookupS [(("u1", "r1"), ({ channel_id := some "chan" } : DialogState))]
        ("u1", "r1") = some st → st.channel_id = some ch → ch ≠ "" →
      lookupS (auto_finish_dialog [(("u1", "r1"), { channel_id := some "chan" })]
        ("u1", "r1")).1 ("u1", "r1") = none) ∧
    keysNodup (cancelHandler [(("u1", "r1"), { channel_id := some "chan" })]
        ("u1", "r1") none "chan").1 ∧
    keysNodup (finishHandler [(("u1", "r1"), { channel_id := some "chan" })]
        ("u1", "r1") "Task" "chan" "p1").1 ∧
    keysNodup (auto_finish_dialog [(("u1", "r1"), { channel_id := some "chan" })]
        ("u1", "r1")).1 ∧
    (∀ (now : Int) (f : DialogState → DialogState),
      keysNodup (set_state [(("u1", "r1"), { channel_id := some "chan" })]
        ("u1", "r1") now f).1) :=
  c4_store_unique_and_cleared [(("u1", "r1"), { channel_id := some "chan" })]
    ("u1", "r1") none "chan" "Task" "p1" (by decide)

/-- The membership test of the Allowed-Project Resolver, unfolded: a
project passes the filter exactly when it is not soft-deleted and some
member id resolves to the (nonempty) actor email. -/
theorem allowedPred_iff (emailOf : String → Option String) (e : String) (p : Project)
    (he : e ≠ "") :
    ((if p.deleted then false
      else
        match p.users with
        | none => false
        | some ids => ids.any fun uid =>
            match emailOf uid with
            | some e2 => (e2 != "") && (e2 == e)
            | none => false) = true)
    ↔ p.deleted = false ∧ ∃ ids uid, p.users = some ids ∧ uid ∈ ids ∧ emailOf uid = some e := by
  by_cases hd : p.deleted = true
  · simp [hd]
  · have hdf : p.deleted = false := by
      cases hb : p.deleted
      · rfl
      · exact absurd hb hd
    rw [if_neg hd]
    rcases hu : p.users with _ | ids
    · simp [hu, hdf]
    · rw [List.any_eq_true]
      constructor
      · rintro ⟨uid, hm, hcond⟩
        rcases hE : emailOf uid with _ | e2
        · rw [hE] at hcond
          exact absurd hcond (by simp)
        · rw [hE] at hcond
          have h2 : e2 = e := by
            have hsplit := (Bool.and_eq_true _ _).mp hcond
            exact beq_iff_eq.mp hsplit.2
          exact ⟨hdf, ids, uid, rfl, hm, by rw [hE, h2]⟩
      · rintro ⟨-, ids2, uid, husers, hm, hE⟩
        obtain rfl : ids2 = ids := (Option.some.inj husers).symm
        refine ⟨uid, hm, ?_⟩
        rw [hE]
        simp [he]

/-- C9: the Allowed-Project Resolver returns exactly the non-deleted
projects whose membership contains an id resolving to the actor's
trimmed, lowercased email; an actor without a resolvable email (or with
an empty one) yields the empty set. -/
theorem c9_allowed_projects_iff (mm_email_raw : Option String)
    (all_users : List YgUser) (all_projects : List Project) (p : Project) :
    (pyLower (pyStrip (mm_email_raw.getD "")) = "" →
      get_allowed_projects_for_mm_user mm_email_raw all_users all_projects = []) ∧
    (pyLower (pyStrip (mm_email_raw.getD "")) ≠ "" →
      (p ∈ get_allowed_projects_for_mm_user mm_email_raw all_users all_projects ↔
        p ∈ all_projects ∧ p.deleted = false ∧
        ∃ ids uid, p.users = some ids ∧ uid ∈ ids ∧
          user_email_by_id all_users uid = some (pyLower (pyStrip (mm_email_raw.getD ""))))) := by
  constructor
  · intro h
    simp [get_allowed_projects_for_mm_user, h]
  · intro h
    constructor
    · intro hp
      simp only [get_allowed_projects_for_mm_user, if_neg h] at hp
      rw [List.mem_filter] at hp
      exact ⟨hp.1, (allowedPred_iff (user_email_by_id all_users) _ p h).mp hp.2⟩
    · rintro ⟨h1, h2, h3⟩
      simp only [get_allowed_projects_for_mm_user, if_neg h]
      rw [List.mem_filter]
      exact ⟨h1, (allowedPred_iff (user_email_by_id all_users) _ p h).mpr ⟨h2, h3⟩⟩

/-- Instantiation of `c9_allowed_projects_iff`: the actor
`" Alice@Corp.COM "` is allowed into the live project that lists a member
resolving to `alice@corp.com`, and an actor without an email gets the
empty list. -/
theorem c9_witness :
    (({ id := some "p1", title := some "P", deleted := false, users := some ["u1"] } : Project) ∈
      get_allowed_projects_for_mm_user (some " Alice@Corp.COM ")
        [{ id := some "u1", email := some "alice@corp.com" }]
        [{ id := some "p1", title := some "P", deleted := false, users := some ["u1"] }] ↔
      ({ id := some "p1", title := some "P", deleted := false, users := some ["u1"] } : Project) ∈
        [({ id := some "p1", title := some "P", deleted := false, users := some ["u1"] } : Project)] ∧
      ({ id := some "p1", title := some "P", deleted := false, users := some ["u1"] } : Project).deleted = false ∧
      ∃ ids uid,
        ({ id := some "p1", title := some "P", deleted := false, users := some ["u1"] } : Project).users = some ids ∧
        uid ∈ ids ∧
        user_email_by_id [{ id := some "u1", email := some "alice@corp.com" }] uid
          = some (pyLower (pyStrip ((some " Alice@Corp.COM ").getD "")))) ∧
    get_allowed_projects_for_mm_user none
      [{ id := some "u1", email := some "alice@corp.com" }]
      [{ id := some "p1", title := some "P", deleted := false, users := some ["u1"] }] = [] :=
  ⟨(c9_allowed_projects_iff (some " Alice@Corp.COM ")
      [{ id := some "u1", email := some "alice@corp.com" }]
      [{ id := some "p1", title := some "P", deleted := false, users := some ["u1"] }]
      { id := some "p1", title := some "P", deleted := false, users := some ["u1"] }).2
    (by decide),
   (c9_allowed_projects_iff none
      [{ id := some "u1", email := some "alice@corp.com" }]
      [{ id := some "p1", title := some "P", deleted := false, users := some ["u1"] }]
      { id := some "p1", title := some "P", deleted := false, users := some ["u1"] }).1
    (by decide)⟩

/-- C1: when the chosen (or defaulted) project has exactly one board, the
wizard records that board as selected and the emitted prompt is the
column prompt — no board prompt is ever emitted; with two or more boards
a board prompt is emitted. Holds for both the `CHOOSE_PROJECT` callback
and `start_task_creation`'s default-project path. -/
theorem c1_single_board_skips_board_prompt (store : Store) (k : DKey) (now : Int)
    (pid task_title channel_id post_id title : String) (b b1 b2 : Board)
    (bs : List Board) (c0 : Column) (cs : List Column) (new_post_id : String)
    (P : Project) (restP : List Project) (pid0 t0 : String)
    (hpid : pid ≠ "") (hPid : P.id = some pid0) :
    (∃ st', lookupS (chooseProjectHandler store k now (some pid) task_title channel_id
        post_id [b] (c0 :: cs) new_post_id).1 k = some st' ∧ st'.board_id = some b.id) ∧
    (chooseProjectHandler store k now (some pid) task_title channel_id post_id [b]
        (c0 :: cs) new_post_id).2.any isColumnPrompt = true ∧
    (chooseProjectHandler store k now (some pid) task_title channel_id post_id [b]
        (c0 :: cs) new_post_id).2.all (fun c => !isBoardPrompt c) = true ∧
    (chooseProjectHandler store k now (some pid) task_title channel_id post_id
        (b1 :: b2 :: bs) (c0 :: cs) new_post_id).2.any isBoardPrompt = true ∧
    (∃ st', lookupS (start_task_creation store k now (P :: restP) (some (pid0, t0))
        channel_id title [b] (c0 :: cs) new_post_id).1 k = some st' ∧
      st'.board_id = some b.id) ∧
    (start_task_creation store k now (P :: restP) (some (pid0, t0)) channel_id title [b]
        (c0 :: cs) new_post_id).2.any isColumnPrompt = true ∧
    (start_task_creation store k now (P :: restP) (some (pid0, t0)) channel_id title [b]
        (c0 :: cs) new_post_id).2.all (fun c => !isBoardPrompt c) = true ∧
    (start_task_creation store k now (P :: restP) (some (pid0, t0)) channel_id title
        (b1 :: b2 :: bs) (c0 :: cs) new_post_id).2.any isBoardPrompt = true := by
  have hfind : List.find? (fun p => p.id == some pid0) (P :: restP) = some P :=
    List.find?_cons_of_pos _ (by simp [hPid])
  refine ⟨?_, ?_, ?_, ?_, ?_, ?_, ?_, ?_⟩
  · simp only [chooseProjectHandler, if_neg hpid]
    refine ⟨_, set_state_lookup_self _ _ _ _, ?_⟩
    simp only [set_state, lookupS_setS_self, Option.getD_some]
  · simp only [chooseProjectHandler, if_neg hpid]
    rfl
  · simp only [chooseProjectHandler, if_neg hpid]
    rfl
  · simp only [chooseProjectHandler, if_neg hpid]
    rfl
  · simp only [start_task_creation, Option.some_bind, hfind]
    refine ⟨_, set_state_lookup_self _ _ _ _, ?_⟩
    simp only [set_state, lookupS_setS_self, Option.getD_some]
  · simp only [start_task_creation, Option.some_bind, hfind]
    rfl
  · simp only [start_task_creation, Option.some_bind, hfind]
    rfl
  · simp only [start_task_creation, Option.some_bind, hfind]
    rfl

/-- Instantiation of `c1_single_board_skips_board_prompt`: with one board
the column prompt is emitted and no board prompt appears; with two boards
the board prompt appears. -/
theorem c1_witness :
    (∃ st', lookupS (chooseProjectHandler [] ("u1", "r1") 500 (some "p") "Task" "chan"
        "post" [{ id := "b1", title := some "B" }] ({ id := "c1", title := some "C" } :: [])
        "np").1 ("u1", "r1") = some st' ∧
      st'.board_id = some ({ id := "b1", title := some "B" } : Board).id) ∧
    (chooseProjectHandler [] ("u1", "r1") 500 (some "p") "Task" "chan" "post"
        [{ id := "b1", title := some "B" }] ({ id := "c1", title := some "C" } :: [])
        "np").2.any isColumnPrompt = true ∧
    (chooseProjectHandler [] ("u1", "r1") 500 (some "p") "Task" "chan" "post"
        [{ id := "b1", title := some "B" }] ({ id := "c1", title := some "C" } :: [])
        "np").2.all (fun c => !isBoardPrompt c) = true ∧
    (chooseProjectHandler [] ("u1", "r1") 500 (some "p") "Task" "chan" "post"
        ({ id := "b1", title := some "B" } :: { id := "b2", title := some "B2" } :: [])
        ({ id := "c1", title := some "C" } :: []) "np").2.any isBoardPrompt = true := by
  have h := c1_single_board_skips_board_prompt [] ("u1", "r1") 500 "p" "Task" "chan"
    "post" "T" { id := "b1", title := some "B" } { id := "b1", title := some "B" }
    { id := "b2", title := some "B2" } [] { id := "c1", title := some "C" } [] "np"
    { id := some "p0" } [] "p0" "T0" (by decide) (by decide)
  exact ⟨h.1, h.2.1, h.2.2.1, h.2.2.2.1⟩

/-- C7 counterexample: after the zero-boards abort the dialog record is
NOT destroyed — the key is still bound in the store (the claim's
"the dialog record is destroyed (not left in the store)" fails). -/
theorem c7_counterexample :
    (lookupS (chooseProjectHandler [] ("u1", "r1") 500 (some "p") "Task" "chan" "post"
        [] [] "np").1 ("u1", "r1")).isSome = true := by
  rw [show (chooseProjectHandler [] ("u1", "r1") 500 (some "p") "Task" "chan" "post"
      [] [] "np").1 = (set_state [] ("u1", "r1") 500 fun s =>
        { s with step := some "CHOOSE_PROJECT", task_title := some "Task",
                 project_id := some "p",
                 project_title := (dictGet (((lookupS ([] : Store) ("u1", "r1")).getD
                   {}).project_options) "p").getD "без названия",
                 channel_id := some "chan" }).1 from rfl]
  rw [set_state_lookup_self]
  rfl

/-- C7 as amended: on zero boards (project step) or zero columns (either
board path), an explanatory message is emitted and no task-creation
request is issued, but the dialog is not terminated: its record remains
in the store rather than being destroyed. -/
theorem c7_structural_abort (store : Store) (k : DKey) (now : Int)
    (pid bid task_title channel_id post_id npid : String)
    (ctx_project_id : Option String) (b : Board)
    (hpid : pid ≠ "") (hbid : bid ≠ "") :
    (createdBodies (chooseProjectHandler store k now (some pid) task_title channel_id
        post_id [] [] npid).2 = [] ∧
     (∃ ptitle, Cmd.post channel_id
        ("В проекте \"" ++ ptitle ++ "\" нет досок, задачу создать нельзя.") none (some k.2)
        ∈ (chooseProjectHandler store k now (some pid) task_title channel_id post_id
            [] [] npid).2) ∧
     (lookupS (chooseProjectHandler store k now (some pid) task_title channel_id post_id
        [] [] npid).1 k).isSome = true) ∧
    (createdBodies (chooseProjectHandler store k now (some pid) task_title channel_id
        post_id [b] [] npid).2 = [] ∧
     (∃ btitle, Cmd.post channel_id
        ("На доске \"" ++ btitle ++ "\" нет колонок, задачу создать нельзя.") none (some k.2)
        ∈ (chooseProjectHandler store k now (some pid) task_title channel_id post_id
            [b] [] npid).2) ∧
     (lookupS (chooseProjectHandler store k now (some pid) task_title channel_id post_id
        [b] [] npid).1 k).isSome = true) ∧
    (createdBodies (chooseBoardHandler store k now (some bid) ctx_project_id task_title
        channel_id post_id [] npid).2 = [] ∧
     (∃ btitle, Cmd.patchPost post_id
        ("На доске \"" ++ btitle ++ "\" нет колонок, задачу создать нельзя.") none
        ∈ (chooseBoardHandler store k now (some bid) ctx_project_id task_title
            channel_id post_id [] npid).2) ∧
     (lookupS (chooseBoardHandler store k now (some bid) ctx_project_id task_title
        channel_id post_id [] npid).1 k).isSome = true) := by
  refine ⟨⟨?_, ?_, ?_⟩, ⟨?_, ?_, ?_⟩, ⟨?_, ?_, ?_⟩⟩
  · simp only [chooseProjectHandler, if_neg hpid]
    rfl
  · simp only [chooseProjectHandler, if_neg hpid]
    exact ⟨_, List.mem_cons_of_mem _ (List.mem_cons_self _ _)⟩
  · simp only [chooseProjectHandler, if_neg hpid]
    rw [set_state_lookup_self]
    rfl
  · simp only [chooseProjectHandler, if_neg hpid]
    rfl
  · simp only [chooseProjectHandler, if_neg hpid]
    exact ⟨_, List.mem_cons_of_mem _ (List.mem_cons_self _ _)⟩
  · simp only [chooseProjectHandler, if_neg hpid]
    rw [set_state_lookup_self]
    rfl
  · simp only [chooseBoardHandler, if_neg hbid]
    rfl
  · simp only [chooseBoardHandler, if_neg hbid]
    exact ⟨_, List.mem_cons_self _ _⟩
  · simp only [chooseBoardHandler, if_neg hbid]
    rw [set_state_lookup_self]
    rfl

/-- Instantiation of `c7_structural_abort` on an empty store. -/
theorem c7_witness :
    (createdBodies (chooseProjectHandler [] ("u1", "r1") 500 (some "p") "Task" "chan"
        "post" [] [] "np").2 = [] ∧
     (∃ ptitle, Cmd.post "chan"
        ("В проекте \"" ++ ptitle ++ "\" нет досок, задачу создать нельзя.") none (some "r1")
        ∈ (chooseProjectHandler [] ("u1", "r1") 500 (some "p") "Task" "chan" "post"
            [] [] "np").2) ∧
     (lookupS (chooseProjectHandler [] ("u1", "r1") 500 (some "p") "Task" "chan" "post"
        [] [] "np").1 ("u1", "r1")).isSome = true) ∧
    (createdBodies (chooseProjectHandler [] ("u1", "r1") 500 (some "p") "Task" "chan"
        "post" [{ id := "b1", title := some "B" }] [] "np").2 = [] ∧
     (∃ btitle, Cmd.post "chan"
        ("На доске \"" ++ btitle ++ "\" нет колонок, задачу создать нельзя.") none (some "r1")
        ∈ (chooseProjectHandler [] ("u1", "r1") 500 (some "p") "Task" "chan" "post"
            [{ id := "b1", title := some "B" }] [] "np").2) ∧
     (lookupS (chooseProjectHandler [] ("u1", "r1") 500 (some "p") "Task" "chan" "post"
        [{ id := "b1", title := some "B" }] [] "np").1 ("u1", "r1")).isSome = true) ∧
    (createdBodies (chooseBoardHandler [] ("u1", "r1") 500 (some "b1") none "Task"
        "chan" "post" [] "np").2 = [] ∧
     (∃ btitle, Cmd.patchPost "post"
        ("На доске \"" ++ btitle ++ "\" нет колонок, задачу создать нельзя.") none
        ∈ (chooseBoardHandler [] ("u1", "r1") 500 (some "b1") none "Task" "chan"
            "post" [] "np").2) ∧
     (lookupS (chooseBoardHandler [] ("u1", "r1") 500 (some "b1") none "Task" "chan"
        "post" [] "np").1 ("u1", "r1")).isSome = true) :=
  c7_structural_abort [] ("u1", "r1") 500 "p" "b1" "Task" "chan" "post" "np" none
    { id := "b1", title := some "B" } (by decide) (by decide)

/-- A sweep iteration never touches the binding of a key other than the
item's own. -/
theorem sweepStep_lookup_ne (now th : Int) (fail : DKey → Bool) (acc : Store)
    (item : DKey × DialogState) (k : DKey) (h : k ≠ item.1) :
    lookupS (sweepStep now th fail acc item) k = lookupS acc k := by
  unfold sweepStep
  by_cases h1 : sweepEligible now th item.2 = true
  · rw [if_pos h1]
    by_cases h2 : fail item.1 = true
    · rw [if_pos h2]
    · rw [if_neg h2]
      rcases hL : lookupS acc item.1 with _ | st0
      · simp only [auto_finish_dialog, hL]
      · rcases hC : st0.channel_id with _ | ch
        · simp only [auto_finish_dialog, hL, hC]
        · by_cases hE : ch = ""
          · simp only [auto_finish_dialog, hL, hC, if_pos hE]
          · simp only [auto_finish_dialog, hL, hC, if_neg hE]
            exact lookupS_removeS_ne acc item.1 k h
  · rw [if_neg h1]

/-- Folding sweep iterations over items whose keys all differ from `k`
leaves the binding of `k` unchanged. -/
theorem foldl_sweep_ne (now th : Int) (fail : DKey → Bool) :
    ∀ (items : List (DKey × DialogState)) (acc : Store) (k : DKey),
      (∀ p ∈ items, p.1 ≠ k) →
      lookupS (items.foldl (sweepStep now th fail) acc) k = lookupS acc k := by
  intro items
  induction items with
  | nil => intro acc k _; rfl
  | cons it rest ih =>
      intro acc k h
      rw [List.foldl_cons,
        ih _ k (fun p hp => h p (List.mem_cons_of_mem _ hp))]
      exact sweepStep_lookup_ne now th fail acc it k
        (fun he => h it (List.mem_cons_self _ _) he.symm)

/-- A successful lookup splits the store around its (first) binding, with
no earlier binding of the same key. -/
theorem lookup_split (s : Store) (k : DKey) (st : DialogState)
    (h : lookupS s k = some st) :
    ∃ l1 l2, s = l1 ++ (k, st) :: l2 ∧ ∀ p ∈ l1, p.1 ≠ k := by
  induction s with
  | nil => simp [lookupS] at h
  | cons p rest ih =>
      obtain ⟨k0, st0⟩ := p
      by_cases hk : k0 = k
      · subst hk
        simp only [lookupS, if_pos rfl] at h
        obtain rfl : st0 = st := Option.some.inj h
        exact ⟨[], rest, rfl, by simp⟩
      · simp only [lookupS, if_neg hk] at h
        obtain ⟨l1, l2, hs, hl1⟩ := ih h
        refine ⟨(k0, st0) :: l1, l2, by rw [hs]; rfl, ?_⟩
        intro p hp
        rcases List.mem_cons.mp hp with rfl | hp2
        · exact hk
        · exact hl1 p hp2

/-- In a nodup-keyed store split around a binding of `k`, no later
binding carries `k`. -/
theorem nodup_right_ne (l1 l2 : Store) (k : DKey) (st : DialogState)
    (h : keysNodup (l1 ++ (k, st) :: l2)) : ∀ p ∈ l2, p.1 ≠ k := by
  intro p hp heq
  have h2 : (List.map Prod.fst ((k, st) :: l2)).Nodup :=
    List.Nodup.of_append_right (by simpa [keysNodup, List.map_append] using h)
  have h3 : k ∉ List.map Prod.fst l2 := (List.nodup_cons.mp h2).1
  exact h3 (heq ▸ List.mem_map.mpr ⟨p, hp, rfl⟩)

/-- C5: a sweep removes exactly those dialogs whose snapshot state is in
`OPTIONAL_ATTACH` with idle time strictly above the threshold and whose
processing does not fail; every other dialog keeps its binding untouched,
regardless of which other dialogs fail — so one dialog's failure never
aborts the scan of the rest. (Each `OPTIONAL_ATTACH` dialog is assumed to
know its channel, which holds on every reachable store.) -/
theorem c5_sweeper_exact (now th : Int) (fail : DKey → Bool) (store : Store)
    (hnod : keysNodup store)
    (hch : ∀ p ∈ store, p.2.step = some "OPTIONAL_ATTACH" → chOk p.2 = true)
    (k : DKey) (st : DialogState) (hk : lookupS store k = some st) :
    lookupS (auto_cleanup_sweep now th fail store) k =
      (if sweepEligible now th st = true ∧ fail k = false then none else some st) := by
  obtain ⟨l1, l2, hs, hl1⟩ := lookup_split store k st hk
  have hl2 : ∀ p ∈ l2, p.1 ≠ k := nodup_right_ne l1 l2 k st (hs ▸ hnod)
  have hmem : (k, st) ∈ store := by
    rw [hs]
    exact List.mem_append_right _ (List.mem_cons_self _ _)
  unfold auto_cleanup_sweep
  rw [hs, List.foldl_append, List.foldl_cons]
  have hacc : lookupS (List.foldl (sweepStep now th fail) (l1 ++ (k, st) :: l2) l1) k
      = some st :=
    (foldl_sweep_ne now th fail l1 _ k hl1).trans (hs ▸ hk)
  rw [foldl_sweep_ne now th fail l2 _ k hl2]
  set acc := List.foldl (sweepStep now th fail) (l1 ++ (k, st) :: l2) l1 with hacc0
  by_cases hel : sweepEligible now th st = true
  · by_cases hf : fail k = true
    · have hstep : sweepStep now th fail acc (k, st) = acc := by
        simp only [sweepStep, hel, hf, if_true]
      rw [hstep, hacc, if_neg fun hco => by
        rw [hf] at hco
        exact absurd hco.2 (by simp)]
    · have hf' : fail k = false := by
        cases hff : fail k
        · rfl
        · exact absurd hff hf
      have hstep0 : st.step = some "OPTIONAL_ATTACH" := by
        have h2 := (Bool.and_eq_true _ _).mp hel
        exact beq_iff_eq.mp h2.1
      have hchk := hch (k, st) hmem hstep0
      rcases hC : st.channel_id with _ | ch
      · rw [chOk, hC] at hchk
        exact absurd hchk (by simp)
      · have hne : ch ≠ "" := by
          rw [chOk, hC] at hchk
          exact bne_iff_ne.mp hchk
        have hstep : sweepStep now th fail acc (k, st) = (auto_finish_dialog acc k).1 := by
          simp only [sweepStep, hel, hf', if_true, Bool.false_eq_true, if_false]
        have hauto : (auto_finish_dialog acc k).1 = removeS acc k := by
          simp only [auto_finish_dialog, hacc, hC, if_neg hne, clear_state]
        rw [hstep, hauto, lookupS_removeS_self, if_pos ⟨hel, hf'⟩]
  · have hstep : sweepStep now th fail acc (k, st) = acc := by
      simp only [sweepStep]
      rw [if_neg hel]
    rw [hstep, hacc, if_neg fun hco => hel hco.1]

/-- Instantiation of `c5_sweeper_exact` on a two-dialog store: the idle
`OPTIONAL_ATTACH` dialog is removed and the (equally idle) dialog in
another step is untouched. -/
theorem c5_witness :
    lookupS (auto_cleanup_sweep 100000 5 (fun _ => false)
      [(("u1", "r1"), { step := some "OPTIONAL_ATTACH", channel_id := some "chan", updated_at := some 10 }),
       (("u2", "r2"), { step := some "CHOOSE_PROJECT", channel_id := some "chan", updated_at := some 10 })]) ("u1", "r1") =
      (if sweepEligible 100000 5 ({ step := some "OPTIONAL_ATTACH", channel_id := some "chan", updated_at := some 10 } : DialogState) = true ∧
          (fun (_ : DKey) => false) ("u1", "r1") = false then none
       else some { step := some "OPTIONAL_ATTACH", channel_id := some "chan", updated_at := some 10 }) ∧
    lookupS (auto_cleanup_sweep 100000 5 (fun _ => false)
      [(("u1", "r1"), { step := some "OPTIONAL_ATTACH", channel_id := some "chan", updated_at := some 10 }),
       (("u2", "r2"), { step := some "CHOOSE_PROJECT", channel_id := some "chan", updated_at := some 10 })]) ("u2", "r2") =
      (if sweepEligible 100000 5 ({ step := some "CHOOSE_PROJECT", channel_id := some "chan", updated_at := some 10 } : DialogState) = true ∧
          (fun (_ : DKey) => false) ("u2", "r2") = false then none
       else some { step := some "CHOOSE_PROJECT", channel_id := some "chan", updated_at := some 10 }) :=
  ⟨c5_sweeper_exact 100000 5 (fun _ => false)
      [(("u1", "r1"), { step := some "OPTIONAL_ATTACH", channel_id := some "chan", updated_at := some 10 }),
       (("u2", "r2"), { step := some "CHOOSE_PROJECT", channel_id := some "chan", updated_at := some 10 })]
      (by decide) (by decide) ("u1", "r1") _ (by decide),
   c5_sweeper_exact 100000 5 (fun _ => false)
      [(("u1", "r1"), { step := some "OPTIONAL_ATTACH", channel_id := some "chan", updated_at := some 10 }),
       (("u2", "r2"), { step := some "CHOOSE_PROJECT", channel_id := some "chan", updated_at := some 10 })]
      (by decide) (by decide) ("u2", "r2") _ (by decide)⟩

/-- The month group only produces months 1–12. -/
theorem parseMonthPart_sound (cs : List Char) (m : Int) (rest : List Char)
    (h : parseMonthPart cs = some (m, rest)) : 1 ≤ m ∧ m ≤ 12 := by
  rcases cs with _ | ⟨c1, cs1⟩
  · exact absurd h (by simp [parseMonthPart])
  rcases cs1 with _ | ⟨c2, rest'⟩
  · simp only [parseMonthPart] at h
    split at h
    · rename_i hcond
      simp only [Option.some.injEq, Prod.mk.injEq] at h
      obtain ⟨h1, -⟩ := h
      simp only [digVal] at h1
      omega
    · exact Option.noConfusion h
  · simp only [parseMonthPart] at h
    split at h
    · rename_i hcond
      simp only [Option.some.injEq, Prod.mk.injEq] at h
      obtain ⟨h1, -⟩ := h
      simp only [digVal] at h1
      omega
    · split at h
      · split at h
        · rename_i hcond2
          simp only [Option.some.injEq, Prod.mk.injEq] at h
          obtain ⟨h1, -⟩ := h
          simp only [digVal] at h1
          omega
        · exact Option.noConfusion h
      · split at h
        · rename_i hcond3
          simp only [Option.some.injEq, Prod.mk.injEq] at h
          obtain ⟨h1, -⟩ := h
          simp only [digVal] at h1
          omega
        · exact Option.noConfusion h

/-- The day group only produces days 1–31. -/
theorem parseDayPart_sound (cs : List Char) (d : Int) (rest : List Char)
    (h : parseDayPart cs = some (d, rest)) : 1 ≤ d ∧ d ≤ 31 := by
  rcases cs with _ | ⟨c1, cs1⟩
  · exact absurd h (by simp [parseDayPart])
  rcases cs1 with _ | ⟨c2, rest'⟩
  · simp only [parseDayPart] at h
    split at h
    · rename_i hcond
      simp only [Option.some.injEq, Prod.mk.injEq] at h
      obtain ⟨h1, -⟩ := h
      simp only [digVal] at h1
      omega
    · exact Option.noConfusion h
  · simp only [parseDayPart] at h
    split at h
    · rename_i hcond
      obtain ⟨-, hc2⟩ := hcond
      simp only [Option.some.injEq, Prod.mk.injEq] at h
      obtain ⟨h1, -⟩ := h
      simp only [digVal] at h1
      rcases hc2 with hc2 | hc2 <;> omega
    · split at h
      · rename_i hcond2
        obtain ⟨hc1, hc2⟩ := hcond2
        have hc2' : 48 ≤ c2.toNat ∧ c2.toNat ≤ 57 := by
          simpa [isDig, decide_eq_true_eq] using hc2
        have hc1' : c1.toNat = 49 ∨ c1.toNat = 50 := by
          rcases hc1 with rfl | rfl
          · left; rfl
          · right; rfl
        simp only [Option.some.injEq, Prod.mk.injEq] at h
        obtain ⟨h1, -⟩ := h
        simp only [digVal] at h1
        rcases hc1' with hc1' | hc1' <;> omega
      · split at h
        · split at h
          · rename_i hcond3
            simp only [Option.some.injEq, Prod.mk.injEq] at h
            obtain ⟨h1, -⟩ := h
            simp only [digVal] at h1
            omega
          · exact Option.noConfusion h
        · split at h
          · rename_i hcond4
            simp only [Option.some.injEq, Prod.mk.injEq] at h
            obtain ⟨h1, -⟩ := h
            simp only [digVal] at h1
            omega
          · exact Option.noConfusion h

/-- The full pattern only produces a four-digit year (0–9999) and
in-range month and day groups. -/
theorem parseYMDCore_sound (cs : List Char) (y m d : Int)
    (h : parseYMDCore cs = some (y, m, d)) :
    0 ≤ y ∧ y ≤ 9999 ∧ 1 ≤ m ∧ m ≤ 12 ∧ 1 ≤ d ∧ d ≤ 31 := by
  rcases cs with _ | ⟨a1, cs1⟩
  · exact absurd h (by simp [parseYMDCore])
  rcases cs1 with _ | ⟨a2, cs2⟩
  · exact absurd h (by simp [parseYMDCore])
  rcases cs2 with _ | ⟨a3, cs3⟩
  · exact absurd h (by simp [parseYMDCore])
  rcases cs3 with _ | ⟨a4, cs4⟩
  · exact absurd h (by simp [parseYMDCore])
  rcases cs4 with _ | ⟨a5, rest⟩
  · exact absurd h (by simp [parseYMDCore])
  simp only [parseYMDCore] at h
  split at h
  · rename_i hcond
    obtain ⟨hd1, hd2, hd3, hd4, -⟩ := hcond
    have hb1 : 48 ≤ a1.toNat ∧ a1.toNat ≤ 57 := by simpa [isDig, decide_eq_true_eq] using hd1
    have hb2 : 48 ≤ a2.toNat ∧ a2.toNat ≤ 57 := by simpa [isDig, decide_eq_true_eq] using hd2
    have hb3 : 48 ≤ a3.toNat ∧ a3.toNat ≤ 57 := by simpa [isDig, decide_eq_true_eq] using hd3
    have hb4 : 48 ≤ a4.toNat ∧ a4.toNat ≤ 57 := by simpa [isDig, decide_eq_true_eq] using hd4
    rcases hm : parseMonthPart rest with _ | ⟨m0, rest2⟩
    · simp only [hm] at h
      exact Option.noConfusion h
    · have hmb := parseMonthPart_sound rest m0 rest2 hm
      rcases rest2 with _ | ⟨c6, rest3⟩
      · simp only [hm] at h
        exact Option.noConfusion h
      · by_cases hc6 : c6 = '-'
        · rcases hdp : parseDayPart rest3 with _ | ⟨d0, restd⟩
          · simp only [hm, if_pos hc6, hdp] at h
            exact Option.noConfusion h
          · have hdb := parseDayPart_sound rest3 d0 restd hdp
            rcases restd with _ | ⟨x, xs⟩
            · simp only [hm, if_pos hc6, hdp, Option.some.injEq, Prod.mk.injEq] at h
              obtain ⟨hy, hm2, hd2'⟩ := h
              subst hy
              subst hm2
              subst hd2'
              simp only [digVal]
              exact ⟨by omega, by omega, hmb.1, hmb.2, hdb.1, hdb.2⟩
            · simp only [hm, if_pos hc6, hdp] at h
              exact Option.noConfusion h
        · simp only [hm, if_neg hc6] at h
          exact Option.noConfusion h
  · exact Option.noConfusion h

/-- `strptimeYMD` only succeeds on calendar-valid dates: year 1–9999
(exactly four digits in the input), month 1–12, day within the month. -/
theorem strptimeYMD_sound (s : String) (y m d : Int)
    (h : strptimeYMD s = some (y, m, d)) :
    1 ≤ y ∧ y ≤ 9999 ∧ 1 ≤ m ∧ m ≤ 12 ∧ 1 ≤ d ∧ d ≤ daysInMonth y m := by
  unfold strptimeYMD at h
  rcases hc : parseYMDCore s.data with _ | ⟨y0, m0, d0⟩
  · simp only [hc] at h
    exact Option.noConfusion h
  · simp only [hc] at h
    by_cases hval : 1 ≤ y0 ∧ d0 ≤ daysInMonth y0 m0
    · rw [if_pos hval] at h
      simp only [Option.some.injEq, Prod.mk.injEq] at h
      obtain ⟨rfl, rfl, rfl⟩ := h
      have hcore := parseYMDCore_sound s.data y0 m0 d0 hc
      exact ⟨hval.1, hcore.2.1, hcore.2.2.1, hcore.2.2.2.1, hcore.2.2.2.2.1, hval.2⟩
    · rw [if_neg hval] at h
      exact Option.noConfusion h

/-- C6 counterexample: the input `"2025-1-3"` has a one-digit month and a
one-digit day, so it is not of the claimed `YYYY-MM-DD` shape
(`specStrictYMD` rejects it) — yet `strptime("%Y-%m-%d")` accepts it, and
the custom-date step stores the date and proceeds instead of leaving the
dialog unchanged. -/
theorem c6_counterexample :
    strptimeYMD "2025-1-3" = some (2025, 1, 3) ∧
    specStrictYMD "2025-1-3" = false ∧
    (∃ st', lookupS (customDateStep
        [(("u1", "r1"), { step := some "CHOOSE_DEADLINE", deadline_choice := some "custom", channel_id := some "chan", task_title := some "Task", root_post_id := some "r1", post_ids := ["p1"] })]
        ("u1", "r1") 600 "chan" "2025-1-3" {} none "url" "np").1 ("u1", "r1") = some st' ∧
      st'.deadline = some (daysFromCivil 2025 1 3)) := by
  refine ⟨by decide, by decide, ?_⟩
  exact ⟨_, rfl, rfl⟩

/-- C6 as amended: the custom-date wait parses the next nonempty message
with `strptime("%Y-%m-%d")` — a hyphen-separated calendar-valid date
whose year has exactly four digits and whose month and day may have one
or two digits; on parse failure the store is unchanged and the only
command is the retry/error post (so every later message is parsed the
same way until success or cancellation); on success the parsed date is
stored as the dialog's deadline. -/
theorem c6_custom_date_retry (store : Store) (k : DKey) (now : Int)
    (channel_id message : String) (mm : MmUser) (tid : Option String)
    (url npid : String) :
    (∀ s y m d, strptimeYMD s = some (y, m, d) →
      1 ≤ y ∧ y ≤ 9999 ∧ 1 ≤ m ∧ m ≤ 12 ∧ 1 ≤ d ∧ d ≤ daysInMonth y m) ∧
    (pyStrip message ≠ "" → strptimeYMD (pyStrip message) = none →
      (customDateStep store k now channel_id message mm tid url npid).1 = store ∧
      (customDateStep store k now channel_id message mm tid url npid).2 =
        [Cmd.post channel_id ("Не удалось разобрать дату \"" ++ pyStrip message ++
          "\". Используйте формат YYYY-MM-DD, например 2025-11-13.") none (some k.2)]) ∧
    (∀ y m d, strptimeYMD (pyStrip message) = some (y, m, d) →
      ∃ st', lookupS (customDateStep store k now channel_id message mm tid url npid).1 k
          = some st' ∧ st'.deadline = some (daysFromCivil y m d)) := by
  refine ⟨fun s y m d h => strptimeYMD_sound s y m d h, ?_, ?_⟩
  · intro htext hnone
    constructor <;> simp only [customDateStep, if_neg htext, hnone]
  · intro y m d hsome
    have htext : pyStrip message ≠ "" := by
      intro he
      rw [he] at hsome
      rw [show strptimeYMD "" = none from rfl] at hsome
      exact Option.noConfusion hsome
    simp only [customDateStep, if_neg htext, hsome]
    rcases hlast : (set_state store k now fun s =>
        { s with deadline := some (daysFromCivil y m d),
                 deadline_display := some (pyStrip message) }).2.post_ids.getLast?
      with _ | target
    · simp only [hlast]
      exact ⟨_, set_state_lookup_self _ _ _ _, rfl⟩
    · simp only [hlast]
      obtain ⟨st', hl, hd, -⟩ := create_task_lookup _ k now _ _ mm tid url target npid
      refine ⟨st', hl, ?_⟩
      rw [hd, set_state_lookup_self, Option.getD_some]
      rfl

/-- Instantiation of `c6_custom_date_retry`: the message `"13/11/2025"`
fails to parse, leaves the store unchanged and produces only the retry
post. -/
theorem c6_witness :
    (customDateStep
        [(("u1", "r1"), { step := some "CHOOSE_DEADLINE", deadline_choice := some "custom", channel_id := some "chan", task_title := some "Task", root_post_id := some "r1", post_ids := ["p1"] })]
        ("u1", "r1") 600 "chan" "13/11/2025" {} none "url" "np").1 =
      [(("u1", "r1"), { step := some "CHOOSE_DEADLINE", deadline_choice := some "custom", channel_id := some "chan", task_title := some "Task", root_post_id := some "r1", post_ids := ["p1"] })] ∧
    (customDateStep
        [(("u1", "r1"), { step := some "CHOOSE_DEADLINE", deadline_choice := some "custom", channel_id := some "chan", task_title := some "Task", root_post_id := some "r1", post_ids := ["p1"] })]
        ("u1", "r1") 600 "chan" "13/11/2025" {} none "url" "np").2 =
      [Cmd.post "chan" ("Не удалось разобрать дату \"" ++ pyStrip "13/11/2025" ++
        "\". Используйте формат YYYY-MM-DD, например 2025-11-13.") none (some "r1")] :=
  (c6_custom_date_retry
    [(("u1", "r1"), { step := some "CHOOSE_DEADLINE", deadline_choice := some "custom", channel_id := some "chan", task_title := some "Task", root_post_id := some "r1", post_ids := ["p1"] })]
    ("u1", "r1") 600 "chan" "13/11/2025" {} none "url" "np").2.1
    (by decide) (by decide)

end YougileBot
